import Mathlib

/-!
Shallow embedding of the cycle orchestrator of the SandboxManus trading bot
(src/bot/core/bot_manager.py) and its per-cycle pipeline.

Python floats are modelled as rationals, Python dicts holding optional keys
as structures of `Option` fields, raised exceptions as `Except`, and the
awaited external collaborators (data manager, metrics collector, exchange
manager) as explicit environment values fed to each operation.

The modules bot.exchanges.exchange_manager, bot.data.data_manager and
bot.monitoring.metrics_collector are imported by the source but are not part
of the sources given; the error counter kept by the metrics collector is
modelled from the spec (see metricsAfterSuccess below).
-/

namespace BotManager

/-- One trading signal, as built by _mean_reversion_signal: a Python dict
with keys symbol, action, signal_strength, timestamp, reason. -/
structure Signal where
  symbol : String
  action : String
  signal_strength : ℚ
  timestamp : Option Int
  reason : String
  deriving DecidableEq, Repr

/-- The indicator bundle of one symbol inside the market-data snapshot:
a Python dict that may or may not carry the keys rsi and timestamp. -/
structure SymbolData where
  rsi : Option ℚ
  timestamp : Option Int
  deriving DecidableEq, Repr

/-- The market snapshot: mapping symbol to indicator bundle, modelled as an
association list; market_data.get(symbol) is List.lookup. -/
def MarketData : Type := List (String × SymbolData)

/-- Strategy configuration: config[bot][strategy] with type,
entry.rsi_low and exit.rsi_high flattened. -/
structure StrategyConfig where
  type : String
  entry_rsi_low : ℚ
  exit_rsi_high : ℚ
  deriving DecidableEq, Repr

/-- Risk limits: config[bot][risk]. -/
structure RiskConfig where
  global_exposure_cap_pct : ℚ
  daily_loss_cap_pct : ℚ
  deriving DecidableEq, Repr

/-- The configuration slice the orchestrator reads: strategy, risk limits and
the symbol list config[bot][exchanges][0][symbols]. -/
structure BotConfig where
  strategy : StrategyConfig
  risk : RiskConfig
  symbols : List String
  deriving DecidableEq, Repr

/-- The dict returned by _assess_risks. -/
structure RiskAssessment where
  can_trade : Bool
  reasons : List String
  current_exposure : ℚ
  daily_pnl : ℚ
  approved_signals : List Signal
  deriving DecidableEq, Repr

/-- The exposure-breach reason string appended by _assess_risks. -/
def exposureReason (current_exposure : ℚ) : String :=
  "Exposition globale trop elevee: " ++ toString current_exposure ++ "%"

/-- The daily-loss reason string appended by _assess_risks. -/
def dailyLossReason (daily_pnl : ℚ) : String :=
  "Limite de perte journaliere atteinte: " ++ toString daily_pnl ++ "%"

/-- BotManager._assess_risks, with the results of the two awaited portfolio
queries (_calculate_current_exposure, _calculate_daily_pnl) passed as the
arguments current_exposure and daily_pnl. Both gates run in sequence,
each failed gate clears can_trade and appends its reason. -/
def assessRisks (signals : List Signal) (risk_config : RiskConfig)
    (current_exposure daily_pnl : ℚ) : RiskAssessment :=
  let can_trade := true
  let reasons : List String := []
  let (can_trade, reasons) :=
    if current_exposure > risk_config.global_exposure_cap_pct then
      (false, reasons ++ [exposureReason current_exposure])
    else (can_trade, reasons)
  let (can_trade, reasons) :=
    if daily_pnl < -risk_config.daily_loss_cap_pct then
      (false, reasons ++ [dailyLossReason daily_pnl])
    else (can_trade, reasons)
  { can_trade := can_trade
    reasons := reasons
    current_exposure := current_exposure
    daily_pnl := daily_pnl
    approved_signals := if can_trade then signals else [] }

/-- BotManager._mean_reversion_signal: buy when rsi is below entry.rsi_low,
sell when above exit.rsi_high, nothing otherwise; absent data or absent rsi
yields no signal. `data = none` covers both an absent snapshot entry
(market_data.get gives the default empty dict) and an empty dict. -/
def meanReversionSignal (symbol : String) (data : Option SymbolData)
    (config : StrategyConfig) : Option Signal :=
  match data with
  | none => none
  | some d =>
    match d.rsi with
    | none => none
    | some rsi =>
      if rsi < config.entry_rsi_low then
        some { symbol := symbol
               action := "buy"
               signal_strength := (config.entry_rsi_low - rsi) / config.entry_rsi_low
               timestamp := d.timestamp
               reason := "RSI oversold: " ++ toString rsi }
      else if rsi > config.exit_rsi_high then
        some { symbol := symbol
               action := "sell"
               signal_strength := (rsi - config.exit_rsi_high) / (100 - config.exit_rsi_high)
               timestamp := d.timestamp
               reason := "RSI overbought: " ++ toString rsi }
      else none

/-- A dict lookup returning an empty default: a snapshot entry whose fields
are all absent behaves like the empty dict, so the lookup result is passed
through unchanged (the rsi check inside meanReversionSignal absorbs both). -/
def snapshotGet (market_data : MarketData) (symbol : String) : Option SymbolData :=
  List.lookup symbol market_data

/-- BotManager._generate_signals: loop over the configured symbols of the
first exchange, appending the mean-reversion signal of each symbol when the
strategy type is mean_reversion and a signal is produced. -/
def generateSignals (config : BotConfig) (market_data : MarketData) : List Signal :=
  go config.symbols
where
  go : List String → List Signal
  | [] => []
  | symbol :: rest =>
    (if config.strategy.type = "mean_reversion" then
      match meanReversionSignal symbol (snapshotGet market_data symbol) config.strategy with
      | some s => [s]
      | none => []
    else []) ++ go rest

/-- The placeholder BotManager._calculate_current_exposure, returning 0.0. -/
def calculateCurrentExposure : ℚ := 0

/-- The placeholder BotManager._calculate_daily_pnl, returning 0.0. -/
def calculateDailyPnl : ℚ := 0

/-- The mutable state of a BotManager instance: the three injected
sub-components (true once the manager object is assigned), the lifecycle
flags, and the consecutive-error counter held by the metrics collector. -/
structure BotState where
  exchange_manager : Bool
  data_manager : Bool
  metrics_collector : Bool
  is_initialized : Bool
  is_running : Bool
  emergency_stop : Bool
  error_count : ℕ
  deriving DecidableEq, Repr

/-- The state set up by BotManager.__init__. -/
def initState : BotState :=
  { exchange_manager := false
    data_manager := false
    metrics_collector := false
    is_initialized := false
    is_running := false
    emergency_stop := false
    error_count := 0 }

/-- Which of the awaited startup steps of the external sub-components fail
(raise) during initialize. -/
structure InitEnv where
  exchange_init_fails : Bool
  data_init_fails : Bool
  metrics_init_fails : Bool
  safety_checks_fail : Bool
  deriving DecidableEq, Repr

/-- BotManager.initialize: acquires the exchange manager, the data manager
and the metrics collector in this order, runs the safety checks, then sets
is_initialized. A failing step re-raises after logging; the error value
carries the state as mutated up to the raise. -/
def initializeManager (s : BotState) (env : InitEnv) : Except BotState BotState :=
  let s1 := { s with exchange_manager := true }
  if env.exchange_init_fails then .error s1 else
  let s2 := { s1 with data_manager := true }
  if env.data_init_fails then .error s2 else
  let s3 := { s2 with metrics_collector := true }
  if env.metrics_init_fails then .error s3 else
  if env.safety_checks_fail then .error s3 else
  .ok { s3 with is_initialized := true }

/-- BotManager._handle_cycle_error: increments the error counter of the
metrics collector, reads it back, and engages the emergency stop once the
count exceeds the hard-coded threshold 5. -/
def handleCycleError (s : BotState) : BotState :=
  let count := s.error_count + 1
  { s with
    error_count := count
    emergency_stop := if count > 5 then true else s.emergency_stop }

/-- Modelled from the spec: the error counter of the metrics collector
(bot.monitoring.metrics_collector, not among the sources). Per the spec,
MetricsPort keeps an integer error count, and a successful cycle resets
consecutive_error_count to 0; update_metrics on a completed cycle is the
only metrics call of the success path, so it performs the reset. -/
def metricsAfterSuccess (s : BotState) : BotState :=
  { s with error_count := 0 }

/-- The pipeline stages of one cycle, in source order. -/
inductive Stage where
  | fetchData
  | generateSignalsStage
  | assessRisksStage
  | executeTrades
  | updateMetrics
  deriving DecidableEq, Repr

/-- The behaviour of the awaited external collaborators during one cycle:
the data manager either returns a snapshot or raises, and the metrics
update at the end of the cycle may raise. Signal generation, risk
assessment (its portfolio queries are the total placeholders above) and
trade execution (which catches per-signal failures internally) are total. -/
structure CycleEnv where
  fetch : Except Unit MarketData
  update_metrics_raises : Bool

/-- Whether some pipeline stage raises during a cycle run in this
environment. -/
def CycleEnv.fails (env : CycleEnv) : Bool :=
  (match env.fetch with | .error _ => true | .ok _ => false) || env.update_metrics_raises

/-- The lifecycle errors run_cycle itself raises. -/
inductive BotError where
  | notInitialized
  deriving DecidableEq, Repr

/-- BotManager.run_cycle: raise when not initialized; skip when the
emergency stop is engaged; otherwise fetch data, generate signals, assess
risks, execute trades when allowed, and update metrics, with any stage
exception caught at this boundary and handed to _handle_cycle_error.
Returns the new state and the list of stages that started. -/
def runCycle (config : BotConfig) (s : BotState) (env : CycleEnv) :
    Except BotError (BotState × List Stage) :=
  if s.is_initialized = false then .error .notInitialized
  else if s.emergency_stop then .ok (s, [])
  else
    match env.fetch with
    | .error _ => .ok (handleCycleError s, [.fetchData])
    | .ok market_data =>
      let signals := generateSignals config market_data
      let risk := assessRisks signals config.risk calculateCurrentExposure calculateDailyPnl
      let stages := [Stage.fetchData, Stage.generateSignalsStage, Stage.assessRisksStage]
        ++ (if risk.can_trade then [Stage.executeTrades] else []) ++ [Stage.updateMetrics]
      if env.update_metrics_raises then .ok (handleCycleError s, stages)
      else .ok (metricsAfterSuccess s, stages)

/-- Iterated run_cycle over a list of cycle environments, threading the
state and propagating a raised lifecycle error. -/
def runCycles (config : BotConfig) (s : BotState) : List CycleEnv → Except BotError BotState
  | [] => .ok s
  | env :: rest =>
    match runCycle config s env with
    | .error e => .error e
    | .ok (s1, _) => runCycles config s1 rest

/-- The three sub-components released by cleanup. -/
inductive Component where
  | exchange
  | data
  | metrics
  deriving DecidableEq, Repr

/-- BotManager.cleanup: calls cleanup on the exchange manager, then the data
manager, then the metrics collector, each guarded only by presence of the
component; a raise during one release propagates at once. Returns the state
(unchanged: cleanup assigns no field) and the sequence of release calls
made; the error value carries the calls made up to and including the raise. -/
def cleanupManager (s : BotState) (exchange_cleanup_fails data_cleanup_fails
    metrics_cleanup_fails : Bool) :
    Except (BotState × List Component) (BotState × List Component) :=
  let calls0 : List Component := []
  let calls1 := calls0 ++ (if s.exchange_manager then [Component.exchange] else [])
  if s.exchange_manager && exchange_cleanup_fails then .error (s, calls1) else
  let calls2 := calls1 ++ (if s.data_manager then [Component.data] else [])
  if s.data_manager && data_cleanup_fails then .error (s, calls2) else
  let calls3 := calls2 ++ (if s.metrics_collector then [Component.metrics] else [])
  if s.metrics_collector && metrics_cleanup_fails then .error (s, calls3) else
  .ok (s, calls3)

/-! ## Claim theorems: risk assessor -/

/-- C3: for every input signal list (and every exposure and daily P&L the
portfolio queries can return), the assessment returned by _assess_risks has
approved_signals equal to the full input list when can_trade is true and
equal to the empty list when can_trade is false; hence approved_signals is
a subsequence of the input and a non-empty approved_signals forces
can_trade = true. -/
theorem assessRisks_all_or_nothing (signals : List Signal) (rc : RiskConfig) (e p : ℚ) :
    ((assessRisks signals rc e p).can_trade = true →
      (assessRisks signals rc e p).approved_signals = signals) ∧
    ((assessRisks signals rc e p).can_trade = false →
      (assessRisks signals rc e p).approved_signals = []) ∧
    (assessRisks signals rc e p).approved_signals.Sublist signals ∧
    ((assessRisks signals rc e p).approved_signals ≠ [] →
      (assessRisks signals rc e p).can_trade = true) := by
  simp only [assessRisks]
  split_ifs with h1 h2 <;> simp_all

/-- Witness for C3 at a concrete input: one signal, caps 20 and 5, exposure
and P&L both 0, so can_trade holds and the signal is approved in full. -/
theorem assessRisks_all_or_nothing_witness :
    (assessRisks [⟨"BTC", "buy", 1/6, some 0, "r"⟩] ⟨20, 5⟩ 0 0).approved_signals
      = [⟨"BTC", "buy", 1/6, some 0, "r"⟩] :=
  (assessRisks_all_or_nothing [⟨"BTC", "buy", 1/6, some 0, "r"⟩] ⟨20, 5⟩ 0 0).1 (by decide)

/-- C4: both gates of _assess_risks are evaluated and their reasons
accumulate: can_trade is false exactly when exposure exceeds the exposure
cap or daily P&L falls below the negated loss cap, each breached gate
contributes its reason, and in particular exposure 21 against cap 20, and
P&L -6 against loss cap 5, each veto trading. -/
theorem assessRisks_gates (signals : List Signal) (rc : RiskConfig) (e p : ℚ) :
    ((assessRisks signals rc e p).can_trade = false ↔
      (e > rc.global_exposure_cap_pct ∨ p < -rc.daily_loss_cap_pct)) ∧
    (e > rc.global_exposure_cap_pct →
      exposureReason e ∈ (assessRisks signals rc e p).reasons) ∧
    (p < -rc.daily_loss_cap_pct →
      dailyLossReason p ∈ (assessRisks signals rc e p).reasons) ∧
    (assessRisks signals ⟨20, 5⟩ 21 0).can_trade = false ∧
    exposureReason 21 ∈ (assessRisks signals ⟨20, 5⟩ 21 0).reasons ∧
    (assessRisks signals ⟨20, 5⟩ 0 (-6)).can_trade = false := by
  refine ⟨?_, ?_, ?_, ?_, ?_, ?_⟩ <;> simp only [assessRisks] <;>
    split_ifs <;> simp_all <;> norm_num at *

/-- Witness for C4: the exposure-breach implication discharged at exposure
21 against cap 20. -/
theorem assessRisks_gates_witness :
    exposureReason 21 ∈ (assessRisks [] ⟨20, 5⟩ 21 0).reasons :=
  (assessRisks_gates [] ⟨20, 5⟩ 21 0).2.1 (by norm_num)

/-- C10: the reasons list of an assessment is empty exactly when can_trade
is true, and otherwise holds one entry per failed gate with the
exposure-breach reason placed before the daily-loss reason. -/
theorem assessRisks_reasons (signals : List Signal) (rc : RiskConfig) (e p : ℚ) :
    ((assessRisks signals rc e p).reasons = [] ↔
      (assessRisks signals rc e p).can_trade = true) ∧
    (assessRisks signals rc e p).reasons =
      (if e > rc.global_exposure_cap_pct then [exposureReason e] else [])
        ++ (if p < -rc.daily_loss_cap_pct then [dailyLossReason p] else []) := by
  simp only [assessRisks]
  split_ifs <;> simp_all

/-! ## Claim theorems: signal generator -/

/-- Any signal produced by _mean_reversion_signal carries the symbol it was
asked about. -/
theorem meanReversionSignal_symbol {symbol : String} {data : Option SymbolData}
    {cfg : StrategyConfig} {s : Signal}
    (h : meanReversionSignal symbol data cfg = some s) : s.symbol = symbol := by
  cases data with
  | none => simp [meanReversionSignal] at h
  | some d =>
    simp only [meanReversionSignal] at h
    cases hr : d.rsi with
    | none => simp [hr] at h
    | some rsi =>
      simp only [hr] at h
      split_ifs at h <;> simp_all <;> exact (congrArg Signal.symbol h.symm)

/-- A symbol absent from the configured list contributes nothing to the
generation loop output filtered to that symbol. -/
theorem generateSignals_go_filter_not_mem (config : BotConfig) (md : MarketData)
    (symbol : String) (syms : List String) (h : symbol ∉ syms) :
    (generateSignals.go config md syms).filter (fun s => s.symbol == symbol) = [] := by
  induction syms with
  | nil => simp [generateSignals.go]
  | cons a rest ih =>
    have ha : a ≠ symbol := fun hc => h (hc ▸ List.mem_cons_self a rest)
    have hrest : symbol ∉ rest := fun hc => h (List.mem_cons_of_mem a hc)
    simp only [generateSignals.go, List.filter_append, ih hrest, List.append_nil]
    split_ifs with hty
    · cases hm : meanReversionSignal a (snapshotGet md a) config.strategy with
      | none => simp
      | some s =>
        have hs := meanReversionSignal_symbol hm
        have hne : (a == symbol) = false := beq_eq_false_iff_ne.mpr ha
        simp [List.filter, hs, hne]
    · simp

/-- A symbol configured exactly once contributes exactly the mean-reversion
signal of its snapshot entry (or nothing) to the generation loop output. -/
theorem generateSignals_go_filter_count_one (config : BotConfig) (md : MarketData)
    (symbol : String) (syms : List String)
    (hty : config.strategy.type = "mean_reversion")
    (hcount : syms.count symbol = 1) :
    (generateSignals.go config md syms).filter (fun s => s.symbol == symbol) =
      (match meanReversionSignal symbol (snapshotGet md symbol) config.strategy with
       | some s => [s]
       | none => []) := by
  induction syms with
  | nil => simp [List.count_nil] at hcount
  | cons a rest ih =>
    by_cases ha : a = symbol
    · subst ha
      have hrest : a ∉ rest := by
        have := List.count_cons_self a rest
        rw [hcount] at this
        have h0 : rest.count a = 0 := by omega
        exact (List.count_eq_zero.mp h0)
      simp only [generateSignals.go, List.filter_append,
        generateSignals_go_filter_not_mem config md a rest hrest, List.append_nil]
      rw [if_pos hty]
      cases hm : meanReversionSignal a (snapshotGet md a) config.strategy with
      | none => simp
      | some s =>
        have hs := meanReversionSignal_symbol hm
        simp [List.filter, hs]
    · have hcount2 : rest.count symbol = 1 := by
        rw [List.count_cons_of_ne (fun hc => ha hc.symm) rest] at hcount
        exact hcount
      simp only [generateSignals.go, List.filter_append, ih hcount2]
      rw [if_pos hty]
      cases hm : meanReversionSignal a (snapshotGet md a) config.strategy with
      | none => simp
      | some s =>
        have hs := meanReversionSignal_symbol hm
        have hne : (a == symbol) = false := beq_eq_false_iff_ne.mpr ha
        simp [List.filter, hs, hne]

/-- C5: for a symbol configured exactly once under the mean-reversion
strategy, the generator emits exactly one buy signal with strength
(rsi_low - rsi)/rsi_low when rsi is below entry.rsi_low, exactly one sell
signal with strength (rsi - rsi_high)/(100 - rsi_high) when rsi is above
exit.rsi_high, and no signal otherwise; a symbol whose snapshot entry is
absent, or present without an RSI value, yields no signal and no error. -/
theorem generator_per_symbol (config : BotConfig) (md : MarketData) (symbol : String)
    (rsi : ℚ)
    (hty : config.strategy.type = "mean_reversion")
    (hcount : config.symbols.count symbol = 1) :
    (snapshotGet md symbol = none →
      (generateSignals config md).filter (fun s => s.symbol == symbol) = []) ∧
    (∀ d, snapshotGet md symbol = some d → d.rsi = none →
      (generateSignals config md).filter (fun s => s.symbol == symbol) = []) ∧
    (∀ d, snapshotGet md symbol = some d → d.rsi = some rsi →
      (generateSignals config md).filter (fun s => s.symbol == symbol) =
        (if rsi < config.strategy.entry_rsi_low then
          [{ symbol := symbol
             action := "buy"
             signal_strength :=
               (config.strategy.entry_rsi_low - rsi) / config.strategy.entry_rsi_low
             timestamp := d.timestamp
             reason := "RSI oversold: " ++ toString rsi }]
        else if rsi > config.strategy.exit_rsi_high then
          [{ symbol := symbol
             action := "sell"
             signal_strength :=
               (rsi - config.strategy.exit_rsi_high) / (100 - config.strategy.exit_rsi_high)
             timestamp := d.timestamp
             reason := "RSI overbought: " ++ toString rsi }]
        else [])) := by
  have hgo := generateSignals_go_filter_count_one config md symbol config.symbols hty hcount
  refine ⟨?_, ?_, ?_⟩
  · intro hnone
    rw [generateSignals, hgo, hnone]
    simp [meanReversionSignal]
  · intro d hd hr
    rw [generateSignals, hgo, hd]
    simp [meanReversionSignal, hr]
  · intro d hd hr
    rw [generateSignals, hgo, hd]
    simp only [meanReversionSignal, hr]
    split_ifs <;> simp

/-- Witness for C5: symbol BTC configured once, snapshot RSI 25 against
entry threshold 30 yields the single oversold buy signal. -/
theorem generator_per_symbol_witness :
    (generateSignals ⟨⟨"mean_reversion", 30, 70⟩, ⟨20, 5⟩, ["BTC"]⟩
        [("BTC", ⟨some 25, some 7⟩)]).filter (fun s => s.symbol == "BTC") =
      (if (25 : ℚ) < 30 then
        [{ symbol := "BTC", action := "buy", signal_strength := (30 - 25) / 30
           timestamp := some 7, reason := "RSI oversold: " ++ toString (25 : ℚ) }]
      else if (25 : ℚ) > 70 then
        [{ symbol := "BTC", action := "sell", signal_strength := (25 - 70) / (100 - 70)
           timestamp := some 7, reason := "RSI overbought: " ++ toString (25 : ℚ) }]
      else []) :=
  (generator_per_symbol ⟨⟨"mean_reversion", 30, 70⟩, ⟨20, 5⟩, ["BTC"]⟩
    [("BTC", ⟨some 25, some 7⟩)] "BTC" 25 rfl (by decide)).2.2
    ⟨some 25, some 7⟩ rfl rfl

/-- C6: with a valid RSI (between 0 and 100) and valid thresholds
(positive rsi_low, rsi_high below 100), any signal produced by
_mean_reversion_signal has its strength inside the unit interval. -/
theorem strength_in_unit_interval (symbol : String) (d : SymbolData)
    (cfg : StrategyConfig) (rsi : ℚ) (sig : Signal)
    (hr : d.rsi = some rsi) (h0 : 0 ≤ rsi) (h100 : rsi ≤ 100)
    (hlow : 0 < cfg.entry_rsi_low) (hhigh : cfg.exit_rsi_high < 100)
    (hsig : meanReversionSignal symbol (some d) cfg = some sig) :
    0 ≤ sig.signal_strength ∧ sig.signal_strength ≤ 1 := by
  simp only [meanReversionSignal] at hsig
  simp only [hr] at hsig
  split_ifs at hsig with hb hs
  · obtain rfl := Option.some.inj hsig
    constructor
    · exact div_nonneg (by linarith) hlow.le
    · rw [div_le_one hlow]; linarith
  · obtain rfl := Option.some.inj hsig
    have hden : (0 : ℚ) < 100 - cfg.exit_rsi_high := by linarith
    constructor
    · exact div_nonneg (by linarith) hden.le
    · rw [div_le_one hden]; linarith

/-- Witness for C6: RSI 25 with thresholds 30 and 70 gives the buy signal
of strength 1/6, inside the unit interval. -/
theorem strength_in_unit_interval_witness :
    0 ≤ (Signal.mk "BTC" "buy" ((30 - 25) / 30) (some 7)
          ("RSI oversold: " ++ toString (25 : ℚ))).signal_strength ∧
    (Signal.mk "BTC" "buy" ((30 - 25) / 30) (some 7)
          ("RSI oversold: " ++ toString (25 : ℚ))).signal_strength ≤ 1 :=
  strength_in_unit_interval "BTC" ⟨some 25, some 7⟩ ⟨"mean_reversion", 30, 70⟩ 25
    (Signal.mk "BTC" "buy" ((30 - 25) / 30) (some 7)
      ("RSI oversold: " ++ toString (25 : ℚ)))
    rfl (by norm_num) (by norm_num) (by norm_num) (by norm_num)
    (by norm_num [meanReversionSignal])

/-! ## Claim theorems: orchestrator lifecycle -/

/-- With the emergency stop engaged, run_cycle returns at once: same state,
no stage started. -/
theorem runCycle_skip (config : BotConfig) (s : BotState) (env : CycleEnv)
    (hinit : s.is_initialized = true) (hstop : s.emergency_stop = true) :
    runCycle config s env = .ok (s, []) := by
  simp [runCycle, hinit, hstop]

/-- An initialized, non-stopped manager running a cycle in which a stage
raises ends in the state produced by _handle_cycle_error. -/
theorem runCycle_fail (config : BotConfig) (s : BotState) (env : CycleEnv)
    (hinit : s.is_initialized = true) (hstop : s.emergency_stop = false)
    (hfail : env.fails = true) :
    ∃ tr, runCycle config s env = .ok (handleCycleError s, tr) := by
  rcases env with ⟨fetch, umr⟩
  cases fetch with
  | error u => exact ⟨[Stage.fetchData], by simp [runCycle, hinit, hstop]⟩
  | ok md =>
    have humr : umr = true := by simpa [CycleEnv.fails] using hfail
    exact ⟨[Stage.fetchData, Stage.generateSignalsStage, Stage.assessRisksStage]
      ++ (if (assessRisks (generateSignals config md) config.risk
            calculateCurrentExposure calculateDailyPnl).can_trade
          then [Stage.executeTrades] else []) ++ [Stage.updateMetrics],
      by simp [runCycle, hinit, hstop, humr]⟩

/-- C7: run_cycle signals the not-initialized error exactly when initialize
has not completed; in every other situation it returns normally, every
stage exception being caught at the orchestrator boundary and handed to the
error handler. -/
theorem run_cycle_error_boundary (config : BotConfig) (s : BotState) (env : CycleEnv) :
    (runCycle config s env = .error .notInitialized ↔ s.is_initialized = false) ∧
    (s.is_initialized = true → ∃ out, runCycle config s env = .ok out) := by
  rcases env with ⟨fetch, umr⟩
  by_cases hin : s.is_initialized = false
  · constructor
    · simp [runCycle, hin]
    · intro hc; simp [hc] at hin
  · have hin2 : s.is_initialized = true := by
      cases h : s.is_initialized
      · exact absurd h hin
      · rfl
    cases hstop : s.emergency_stop <;> cases fetch <;> cases umr <;>
      simp [runCycle, hin2, hstop]

/-- Witness for C7: an initialized manager with a clean environment runs a
cycle without raising. -/
theorem run_cycle_error_boundary_witness :
    ∃ out, runCycle ⟨⟨"mean_reversion", 30, 70⟩, ⟨20, 5⟩, ["BTC"]⟩
      { initState with is_initialized := true } ⟨.ok [], false⟩ = .ok out :=
  (run_cycle_error_boundary ⟨⟨"mean_reversion", 30, 70⟩, ⟨20, 5⟩, ["BTC"]⟩
    { initState with is_initialized := true } ⟨.ok [], false⟩).2 rfl

/-- C2: a run_cycle call that actually entered the pipeline (some stage
started, so the cycle was neither rejected nor skipped) and in which no
stage raised leaves the consecutive error count at 0, for every starting
state of the orchestrator. -/
theorem success_resets_error_count (config : BotConfig) (s : BotState) (env : CycleEnv)
    (s1 : BotState) (tr : List Stage)
    (h : runCycle config s env = .ok (s1, tr)) (hok : env.fails = false)
    (htr : tr ≠ []) :
    s1.error_count = 0 := by
  rcases env with ⟨fetch, umr⟩
  by_cases hin : s.is_initialized = false
  · simp [runCycle, hin] at h
  · have hin2 : s.is_initialized = true := by
      cases hb : s.is_initialized
      · exact absurd hb hin
      · rfl
    cases hstop : s.emergency_stop with
    | true =>
      rw [runCycle_skip config s ⟨fetch, umr⟩ hin2 hstop] at h
      obtain ⟨h1, h2⟩ := by simpa using h
      exact absurd h2 htr
    | false =>
      cases fetch with
      | error u => simp [CycleEnv.fails] at hok
      | ok md =>
        have humr : umr = false := by simpa [CycleEnv.fails] using hok
        simp [runCycle, hin2, hstop, humr, metricsAfterSuccess] at h
        obtain ⟨h1, h2⟩ := h
        rw [← h1]

/-- Witness for C2: an initialized manager with three accumulated errors
and a clean cycle ends with the counter back at 0. -/
theorem success_resets_error_count_witness :
    ({ initState with is_initialized := true, error_count := 3 } : BotState).error_count = 3 ∧
    (metricsAfterSuccess { initState with is_initialized := true, error_count := 3 }).error_count = 0 :=
  ⟨rfl, success_resets_error_count ⟨⟨"mean_reversion", 30, 70⟩, ⟨20, 5⟩, ["BTC"]⟩
    { initState with is_initialized := true, error_count := 3 } ⟨.ok [], false⟩
    (metricsAfterSuccess { initState with is_initialized := true, error_count := 3 })
    [Stage.fetchData, Stage.generateSignalsStage, Stage.assessRisksStage,
      Stage.executeTrades, Stage.updateMetrics]
    (by norm_num [runCycle, initState, assessRisks, generateSignals, generateSignals.go,
      snapshotGet, calculateCurrentExposure, calculateDailyPnl, metricsAfterSuccess])
    rfl (by simp)⟩

/-- Below the threshold, handling a cycle error only bumps the counter. -/
theorem handleCycleError_no_trip (s : BotState) (h : s.error_count + 1 ≤ 5) :
    handleCycleError s = { s with error_count := s.error_count + 1 } := by
  simp only [handleCycleError]
  rw [if_neg (by omega)]

/-- Crossing the threshold, handling a cycle error engages the emergency
stop. -/
theorem handleCycleError_trip (s : BotState) (h : s.error_count + 1 > 5) :
    handleCycleError s =
      { s with error_count := s.error_count + 1, emergency_stop := true } := by
  simp only [handleCycleError]
  rw [if_pos (by omega)]

/-- Chaining cycle runs distributes over list append once the first part
ran through. -/
theorem runCycles_append_ok (config : BotConfig) (l1 l2 : List CycleEnv)
    (s s1 : BotState) (h : runCycles config s l1 = .ok s1) :
    runCycles config s (l1 ++ l2) = runCycles config s1 l2 := by
  induction l1 generalizing s with
  | nil =>
    obtain rfl : s = s1 := by simpa [runCycles] using h
    simp [runCycles]
  | cons e rest ih =>
    cases hc : runCycle config s e with
    | error b => simp [runCycles, hc] at h
    | ok out =>
      obtain ⟨st, tr⟩ := out
      simp only [runCycles, List.cons_append, hc] at h ⊢
      exact ih st h

/-- Up to five consecutive failing cycles from a clean, initialized state
only accumulate the error counter, leaving the emergency stop untouched. -/
theorem runCycles_failing_le5 (config : BotConfig) (es : List CycleEnv) :
    ∀ s : BotState, s.is_initialized = true → s.emergency_stop = false →
      (∀ e ∈ es, e.fails = true) → s.error_count + es.length ≤ 5 →
      runCycles config s es = .ok { s with error_count := s.error_count + es.length } := by
  induction es with
  | nil =>
    intro s h1 h2 _ _
    simp [runCycles]
  | cons e rest ih =>
    intro s h1 h2 hfail hbound
    obtain ⟨tr, hrc⟩ := runCycle_fail config s e h1 h2 (hfail e (List.mem_cons_self e rest))
    have hce : handleCycleError s = { s with error_count := s.error_count + 1 } :=
      handleCycleError_no_trip s (by simp at hbound; omega)
    have hrest := ih { s with error_count := s.error_count + 1 } h1 h2
      (fun x hx => hfail x (List.mem_cons_of_mem e hx)) (by simp at hbound ⊢; omega)
    have step : runCycles config s (e :: rest) =
        runCycles config (handleCycleError s) rest := by
      simp [runCycles, hrc]
    rw [step, hce, hrest]
    simp only [List.length_cons, Except.ok.injEq]
    congr 1
    omega

/-- C1: from an initialized orchestrator with a clean error counter and the
hard-coded threshold 5, six consecutive cycles each failing in some stage
leave the emergency stop disengaged after every strict prefix and engage it
exactly after the sixth failure; the seventh call then returns normally at
once, with the state unchanged and no pipeline stage started. -/
theorem kill_switch_trips_after_sixth (config : BotConfig) (s0 : BotState)
    (es : List CycleEnv) (env7 : CycleEnv)
    (hinit : s0.is_initialized = true) (hstop : s0.emergency_stop = false)
    (hcount : s0.error_count = 0)
    (hfail : ∀ e ∈ es, e.fails = true) (hlen : es.length = 6) :
    (∀ k, k < 6 → ∃ sk, runCycles config s0 (es.take k) = .ok sk ∧
      sk.emergency_stop = false) ∧
    (∃ s6, runCycles config s0 es = .ok s6 ∧ s6.emergency_stop = true ∧
      runCycle config s6 env7 = .ok (s6, [])) := by
  constructor
  · intro k hk
    have h := runCycles_failing_le5 config (es.take k) s0 hinit hstop
      (fun e he => hfail e (List.mem_of_mem_take he))
      (by rw [hcount, List.length_take, hlen]; omega)
    exact ⟨_, h, hstop⟩
  · obtain ⟨e6, hdrop⟩ : ∃ e, es.drop 5 = [e] := by
      have hld : (es.drop 5).length = 1 := by rw [List.length_drop, hlen]
      exact List.length_eq_one.mp hld
    have hsplit : es.take 5 ++ [e6] = es := by rw [← hdrop, List.take_append_drop]
    have h5 := runCycles_failing_le5 config (es.take 5) s0 hinit hstop
      (fun e he => hfail e (List.mem_of_mem_take he))
      (by rw [hcount, List.length_take, hlen]; omega)
    have hlen5 : (es.take 5).length = 5 := by rw [List.length_take, hlen]; omega
    rw [← hsplit]
    rw [runCycles_append_ok config (es.take 5) [e6] s0 _ h5]
    have hmem6 : e6 ∈ es := by rw [← hsplit]; exact List.mem_append_right _ (by simp)
    obtain ⟨tr6, hrc6⟩ := runCycle_fail config
      { s0 with error_count := s0.error_count + (es.take 5).length } e6 hinit hstop
      (hfail e6 hmem6)
    have htrip : handleCycleError
        { s0 with error_count := s0.error_count + (es.take 5).length } =
        { s0 with error_count := 6, emergency_stop := true } := by
      rw [handleCycleError_trip _ (by simp [hcount, hlen5])]
      simp [hcount, hlen5]
    refine ⟨{ s0 with error_count := 6, emergency_stop := true }, ?_, rfl, ?_⟩
    · simp only [runCycles]
      rw [hrc6, htrip]
    · exact runCycle_skip config _ env7 hinit rfl

/-- Witness for C1: a concrete six-cycle failing run (each fetch raising)
from a freshly initialized state, followed by a seventh skipped call. -/
theorem kill_switch_trips_after_sixth_witness :
    (∀ k, k < 6 → ∃ sk,
      runCycles ⟨⟨"mean_reversion", 30, 70⟩, ⟨20, 5⟩, ["BTC"]⟩
        { initState with is_initialized := true }
        ((List.replicate 6 (⟨.error (), false⟩ : CycleEnv)).take k) = .ok sk ∧
      sk.emergency_stop = false) ∧
    (∃ s6, runCycles ⟨⟨"mean_reversion", 30, 70⟩, ⟨20, 5⟩, ["BTC"]⟩
        { initState with is_initialized := true }
        (List.replicate 6 (⟨.error (), false⟩ : CycleEnv)) = .ok s6 ∧
      s6.emergency_stop = true ∧
      runCycle ⟨⟨"mean_reversion", 30, 70⟩, ⟨20, 5⟩, ["BTC"]⟩ s6
        (⟨.ok [], false⟩ : CycleEnv) = .ok (s6, [])) :=
  kill_switch_trips_after_sixth ⟨⟨"mean_reversion", 30, 70⟩, ⟨20, 5⟩, ["BTC"]⟩
    { initState with is_initialized := true }
    (List.replicate 6 (⟨.error (), false⟩ : CycleEnv)) (⟨.ok [], false⟩ : CycleEnv)
    rfl rfl rfl
    (fun e he => by
      rw [List.eq_of_mem_replicate he]
      rfl)
    (List.length_replicate 6 _)

/-- C9: once the emergency stop is engaged, no initialize, run_cycle, error
handling or cleanup call disengages it — in both the normal and the raising
outcome of each operation. -/
theorem emergency_stop_monotonic (config : BotConfig) (s : BotState)
    (ienv : InitEnv) (cenv : CycleEnv) (f1 f2 f3 : Bool)
    (h : s.emergency_stop = true) :
    (∀ s1, initializeManager s ienv = .ok s1 → s1.emergency_stop = true) ∧
    (∀ s1, initializeManager s ienv = .error s1 → s1.emergency_stop = true) ∧
    (handleCycleError s).emergency_stop = true ∧
    (∀ s1 tr, runCycle config s cenv = .ok (s1, tr) → s1.emergency_stop = true) ∧
    (∀ s1 calls, cleanupManager s f1 f2 f3 = .ok (s1, calls) →
      s1.emergency_stop = true) ∧
    (∀ s1 calls, cleanupManager s f1 f2 f3 = .error (s1, calls) →
      s1.emergency_stop = true) := by
  refine ⟨?_, ?_, ?_, ?_, ?_, ?_⟩
  · intro s1 h1
    simp only [initializeManager] at h1
    split_ifs at h1 <;> simp_all
    rw [← h1]
  · intro s1 h1
    simp only [initializeManager] at h1
    split_ifs at h1 <;> simp_all <;> rw [← h1]
  · simp only [handleCycleError]
    split_ifs <;> simp [h]
  · intro s1 tr h1
    by_cases hin : s.is_initialized = false
    · simp [runCycle, hin] at h1
    · have hin2 : s.is_initialized = true := by
        cases hb : s.is_initialized
        · exact absurd hb hin
        · rfl
      rw [runCycle_skip config s cenv hin2 h] at h1
      obtain ⟨h2, h3⟩ := by simpa using h1
      rw [← h2]
      exact h
  · intro s1 calls h1
    simp only [cleanupManager] at h1
    split_ifs at h1 <;> simp_all
  · intro s1 calls h1
    simp only [cleanupManager] at h1
    split_ifs at h1 <;> simp_all

/-- Witness for C9: a stopped state stays stopped across a clean run_cycle
call. -/
theorem emergency_stop_monotonic_witness :
    ({ initState with is_initialized := true, emergency_stop := true } : BotState).emergency_stop = true ∧
    (handleCycleError { initState with is_initialized := true, emergency_stop := true }).emergency_stop = true :=
  ⟨rfl, (emergency_stop_monotonic ⟨⟨"mean_reversion", 30, 70⟩, ⟨20, 5⟩, ["BTC"]⟩
    { initState with is_initialized := true, emergency_stop := true }
    ⟨false, false, false, false⟩ ⟨.ok [], false⟩ false false false rfl).2.2.1⟩

/-- The manager state right after a fully successful initialize: all three
sub-components acquired. -/
def allAcquired : BotState :=
  { exchange_manager := true
    data_manager := true
    metrics_collector := true
    is_initialized := true
    is_running := false
    emergency_stop := false
    error_count := 0 }

/-- Counterexample to C8: with all three components acquired, cleanup
releases exchange first and metrics last — not the reverse acquisition
order the claim states — and a raise while releasing the exchange manager
propagates, so the data manager and metrics collector never receive their
release call. -/
theorem cleanup_order_counterexample :
    cleanupManager allAcquired false false false =
      .ok (allAcquired, [Component.exchange, Component.data, Component.metrics]) ∧
    [Component.exchange, Component.data, Component.metrics] ≠
      [Component.metrics, Component.data, Component.exchange] ∧
    cleanupManager allAcquired true false false =
      .error (allAcquired, [Component.exchange]) :=
  ⟨rfl, by decide, rfl⟩

/-- C8 as amended: cleanup releases the acquired sub-components in
acquisition order — exchange connectivity, then data, then metrics — and a
failure while releasing one component propagates immediately, so the
components after the failing one do not get their release call. -/
theorem cleanup_order_amended (s : BotState) (f1 f2 f3 : Bool)
    (h1 : s.exchange_manager = true) (h2 : s.data_manager = true)
    (h3 : s.metrics_collector = true) :
    (f1 = false → f2 = false → f3 = false →
      cleanupManager s f1 f2 f3 =
        .ok (s, [Component.exchange, Component.data, Component.metrics])) ∧
    (f1 = true → cleanupManager s f1 f2 f3 = .error (s, [Component.exchange])) ∧
    (f1 = false → f2 = true →
      cleanupManager s f1 f2 f3 = .error (s, [Component.exchange, Component.data])) ∧
    (f1 = false → f2 = false → f3 = true →
      cleanupManager s f1 f2 f3 =
        .error (s, [Component.exchange, Component.data, Component.metrics])) := by
  cases f1 <;> cases f2 <;> cases f3 <;> simp [cleanupManager, h1, h2, h3]

/-- Witness for C8 as amended: a failing data-manager release after a clean
exchange release stops the teardown before the metrics collector. -/
theorem cleanup_order_amended_witness :
    cleanupManager allAcquired false true false =
      .error (allAcquired, [Component.exchange, Component.data]) :=
  (cleanup_order_amended allAcquired false true false rfl rfl rfl).2.2.1 rfl rfl

end BotManager
